import Mathlib

/-!
Verification of the portfolio normalization and aggregation routine of
`src/main.py` (Solana Portfolio Tracker).

The payload handed to `extract_portfolio_info` is the decoded JSON body of
an HTTP response, so it is modelled by an inductive `JSON` type.  Python's
dynamic operations on such values (`in`, subscripting, `.get`, truthiness,
ordered comparison against a float) are partial: on values of the wrong
type they raise `TypeError` / `KeyError` / `AttributeError`.  They are
therefore embedded as `Except String _` computations; an `.error` value of
the embedding corresponds to an uncaught Python exception.  JSON numbers
are modelled by exact rationals.
-/

attribute [local semireducible] Rat.add Rat.mul Rat.inv Rat.sub Rat.ofScientific

inductive JSON where
  | null : JSON
  | bool : Bool → JSON
  | num  : ℚ → JSON
  | str  : String → JSON
  | arr  : List JSON → JSON
  | obj  : List (String × JSON) → JSON

namespace JSON

/-- Python truthiness (`bool(x)`): `None`, `False`, `0`, `""`, `[]`, `{}`
are falsy, everything else truthy. -/
def falsy : JSON → Bool
  | .null   => true
  | .bool b => !b
  | .num q  => decide (q = 0)
  | .str s  => s.isEmpty
  | .arr xs => xs.isEmpty
  | .obj fs => fs.isEmpty

/-- First binding of key `k` in an association list (a decoded JSON object
has unique keys, so "first" is the only binding). -/
def lookupField : List (String × JSON) → String → Option JSON
  | [], _ => none
  | (k', v) :: rest, k => if k' = k then some v else lookupField rest k

/-- Python `==` between a JSON value and a string literal: never raises;
only a string with the same characters is equal. -/
def eqStr (j : JSON) (s : String) : Bool :=
  match j with
  | .str t => t = s
  | _ => false

/-- Python substring test `k in s` for strings. -/
def strContains (s k : String) : Bool :=
  k.isEmpty || decide ((s.splitOn k).length ≥ 2)

/-- Python `k in x` for a string key `k`: key membership for a dict,
element membership for a list (`==` against a string matches only equal
strings), substring test for a string, `TypeError` otherwise. -/
def pyIn (k : String) : JSON → Except String Bool
  | .obj fs => .ok (lookupField fs k).isSome
  | .arr xs => .ok (xs.any (fun x => eqStr x k))
  | .str s  => .ok (strContains s k)
  | _ => .error "TypeError"

/-- Python `x[k]` for a string key `k`: dict lookup (`KeyError` when the
key is missing), `TypeError` on any non-dict (list and string subscripts
require integers). -/
def pySubscript (j : JSON) (k : String) : Except String JSON :=
  match j with
  | .obj fs =>
    match lookupField fs k with
    | some v => .ok v
    | none => .error "KeyError"
  | _ => .error "TypeError"

/-- Python `x.get(k, d)`: defined for dicts, `AttributeError` otherwise. -/
def pyGet (j : JSON) (k : String) (d : JSON) : Except String JSON :=
  match j with
  | .obj fs => .ok ((lookupField fs k).getD d)
  | _ => .error "AttributeError"

/-- Python iteration `for x in j`: the elements of a list, the characters
of a string, the keys of a dict; `TypeError` otherwise. -/
def pyIter : JSON → Except String (List JSON)
  | .arr xs => .ok xs
  | .str s  => .ok (s.toList.map (fun c => .str c.toString))
  | .obj fs => .ok (fs.map (fun p => .str p.1))
  | _ => .error "TypeError"

/-- Python `x > 0.5` (`bool` is an int in Python, so `True > 0.5` is
`True` and `False > 0.5` is `False`); any other non-numeric operand
raises `TypeError`. -/
def pyGtHalf : JSON → Except String Bool
  | .num q  => .ok (decide ((1 : ℚ) / 2 < q))
  | .bool b => .ok b
  | _ => .error "TypeError"

/-- Numeric reading of a JSON value under Python's numeric tower
(`bool` counts as 0 / 1); `none` for non-numbers. -/
def numVal : JSON → Option ℚ
  | .num q  => some q
  | .bool b => some (if b then 1 else 0)
  | _ => none

end JSON

/-- One element of the `portfolio` list built by `extract_portfolio_info`:
a Python dict with the five fixed keys.  The values are arbitrary payload
fragments, since the source stores whatever `.get` returned. -/
structure PortfolioEntry where
  name : JSON
  symbol : JSON
  total_price_usd : JSON
  amount : JSON
  decimals : JSON

/-- Lines 93-101 of `src/main.py`: the native-balance block.  Emits the
SOL row when `'result' in data and 'nativeBalance' in data['result']`,
with defaults `total_price → 0`, `amount → 0`, `decimals → 9`. -/
def processNative (data : JSON) : Except String (List PortfolioEntry) := do
  let b1 ← JSON.pyIn "result" data
  if b1 then
    let r ← JSON.pySubscript data "result"
    let b2 ← JSON.pyIn "nativeBalance" r
    if b2 then
      let nb ← JSON.pySubscript r "nativeBalance"
      let tp ← JSON.pyGet nb "total_price" (.num 0)
      let am ← JSON.pyGet nb "amount" (.num 0)
      let de ← JSON.pyGet nb "decimals" (.num 9)
      return [⟨.str "Solana", .str "SOL", tp, am, de⟩]
    else
      return []
  else
    return []

/-- Lines 106-116 of `src/main.py`: `name`/`symbol` extraction for one
item, defaulting both to `"Unknown"` unless `content.metadata` is
reachable. -/
def itemMeta (item : JSON) : Except String (JSON × JSON) := do
  let b1 ← JSON.pyIn "content" item
  if b1 then
    let c ← JSON.pySubscript item "content"
    let b2 ← JSON.pyIn "metadata" c
    if b2 then
      let m ← JSON.pySubscript c "metadata"
      let n ← JSON.pyGet m "name" (.str "Unknown")
      let s ← JSON.pyGet m "symbol" (.str "Unknown")
      return (n, s)
    else
      return (.str "Unknown", .str "Unknown")
  else
    return (.str "Unknown", .str "Unknown")

/-- Lines 118-127 of `src/main.py`: `(total_price, amount, decimals)` for
one item.  All three stay at `0` unless `interface == 'FungibleToken'`
and `token_info` is present; `total_price` additionally requires
`price_info`. -/
def itemTokenFields (item : JSON) : Except String (JSON × JSON × JSON) := do
  let b1 ← JSON.pyIn "interface" item
  let fung ← if b1 then do
      let iv ← JSON.pySubscript item "interface"
      pure (JSON.eqStr iv "FungibleToken")
    else
      pure false
  if fung then
    let b2 ← JSON.pyIn "token_info" item
    if b2 then
      let ti ← JSON.pySubscript item "token_info"
      let am ← JSON.pyGet ti "amount" (.num 0)
      let de ← JSON.pyGet ti "decimals" (.num 0)
      let b3 ← JSON.pyIn "price_info" ti
      if b3 then
        let pinfo ← JSON.pySubscript ti "price_info"
        let tp ← JSON.pyGet pinfo "total_price" (.num 0)
        return (tp, am, de)
      else
        return (.num 0, am, de)
    else
      return (.num 0, .num 0, .num 0)
  else
    return (.num 0, .num 0, .num 0)

/-- Lines 106-137 of `src/main.py`: the body of the `for item in ...`
loop.  Returns `some entry` when the item passes the dust filter
`total_price is not None and total_price > 0.5`, `none` when it is
dropped, `.error` when the Python code would raise. -/
def processItem (item : JSON) : Except String (Option PortfolioEntry) := do
  let ns ← itemMeta item
  let tad ← itemTokenFields item
  match tad.1 with
  | JSON.null => return none
  | tp =>
    let b ← JSON.pyGtHalf tp
    if b then
      return (some ⟨ns.1, ns.2, tp, tad.2.1, tad.2.2⟩)
    else
      return none

/-- The `for item in data['result']['items']` loop: items are processed
in order, kept entries are appended in order, and the first exception
aborts the whole extraction. -/
def processItemsLoop : List JSON → Except String (List PortfolioEntry)
  | [] => .ok []
  | item :: rest => do
    let r ← processItem item
    let tail ← processItemsLoop rest
    match r with
    | some e => .ok (e :: tail)
    | none => .ok tail

/-- Lines 104-137 of `src/main.py`: the items block, guarded by
`'result' in data and 'items' in data['result']`. -/
def processItems (data : JSON) : Except String (List PortfolioEntry) := do
  let b1 ← JSON.pyIn "result" data
  if b1 then
    let r ← JSON.pySubscript data "result"
    let b2 ← JSON.pyIn "items" r
    if b2 then
      let itemsJ ← JSON.pySubscript r "items"
      let items ← JSON.pyIter itemsJ
      processItemsLoop items
    else
      return []
  else
    return []

/-- Lines 86-139 of `src/main.py`: `extract_portfolio_info`.  `if not
data: return []`, then the native block, then the items block. -/
def extract_portfolio_info (data : JSON) : Except String (List PortfolioEntry) :=
  if JSON.falsy data then .ok [] else do
    let nat ← processNative data
    let its ← processItems data
    return nat ++ its

/-- The numeric value a portfolio entry contributes to pandas' column sum
(entries produced from well-typed payloads always carry numbers). -/
def entryVal (e : PortfolioEntry) : ℚ :=
  (JSON.numVal e.total_price_usd).getD 0

/-- Line 164 of `src/main.py`: `df['total_price_usd'].sum()`. -/
def total_portfolio_value (p : List PortfolioEntry) : ℚ :=
  (p.map entryVal).sum

/-- Line 171 of `src/main.py`: `len(df)`. -/
def asset_count (p : List PortfolioEntry) : Nat :=
  p.length

/-- A row of the chart dataframe: the columns the pie chart consumes
(`name`, `total_price_usd`) plus `symbol`, which the synthetic `Others`
row sets to `"VARIOUS"`. -/
structure ChartRow where
  name : String
  symbol : String
  value : ℚ
  deriving DecidableEq

/-- Sum of the `total_price_usd` column of the chart dataframe. -/
def chartTotal (rows : List ChartRow) : ℚ :=
  (rows.map ChartRow.value).sum

/-- Line 197 of `src/main.py`: `threshold = total_portfolio_value * 0.005`. -/
def chartThreshold (rows : List ChartRow) : ℚ :=
  chartTotal rows * (5 / 1000)

/-- Lines 196-208 of `src/main.py`: rows strictly below the threshold are
replaced, when any exist, by a single `Others`/`VARIOUS` row holding their
sum, appended after the rows at or above the threshold. -/
def chartBuckets (rows : List ChartRow) : List ChartRow :=
  let threshold := chartThreshold rows
  let small := rows.filter (fun a => decide (a.value < threshold))
  if small.isEmpty then rows
  else
    (rows.filter (fun a => decide (threshold ≤ a.value))) ++
      [⟨"Others", "VARIOUS", (small.map ChartRow.value).sum⟩]

/-- Insert a `','` after every third character of a reversed digit list
(the helper behind Python's `,` format flag). -/
def commaGroup : List Char → List Char
  | a :: b :: c :: d :: rest => a :: b :: c :: ',' :: commaGroup (d :: rest)
  | l => l

/-- Decimal rendering of a natural number with thousands separators. -/
def natCommas (n : Nat) : String :=
  String.mk ((commaGroup (Nat.repr n).data.reverse).reverse)

/-- Left-pad with `'0'` up to `len` characters. -/
def padZeros (s : String) (len : Nat) : String :=
  String.mk (List.replicate (len - s.length) '0') ++ s

/-- Round to the nearest integer, ties to the even integer — the rounding
Python's fixed-point `format` applies to the exact value. -/
def roundHalfEven (q : ℚ) : ℤ :=
  let f := Int.floor q
  if q - f < 1 / 2 then f
  else if 1 / 2 < q - f then f + 1
  else if f % 2 = 0 then f else f + 1

/-- Python's `f"{x:,.prec f}"` on the exact value `x`: thousands-separated
integer part, then `prec` fractional digits. -/
def formatFixed (q : ℚ) (prec : Nat) : String :=
  let n := roundHalfEven (q * 10 ^ prec)
  let sign := if n < 0 then "-" else ""
  let a := n.natAbs
  sign ++ natCommas (a / 10 ^ prec) ++
    (if prec = 0 then "" else "." ++ padZeros (Nat.repr (a % 10 ^ prec)) prec)

/-- Lines 176-179 of `src/main.py`: the `Amount` column,
`f"{float(row['amount']) / (10 ** row['decimals']):,.4f}"`. -/
def formatAmount (amount : ℚ) (decimals : Nat) : String :=
  formatFixed (amount / 10 ^ decimals) 4

/-- Line 175 of `src/main.py`: the `Value (USD)` column, `f"${x:,.2f}"`. -/
def formatUSD (v : ℚ) : String :=
  "$" ++ formatFixed v 2

/-- `true` for an absent field or a JSON-object field. -/
def isObjOrAbsent : Option JSON → Bool
  | none => true
  | some (.obj _) => true
  | _ => false

/-- A `total_price` field the dust filter can consume without raising:
absent, null, numeric, or boolean. -/
def wfPrice : Option JSON → Bool
  | none => true
  | some JSON.null => true
  | some (.num _) => true
  | some (.bool _) => true
  | _ => false

/-- Well-typed item: a dict whose `content`, `content.metadata`,
`token_info` and `token_info.price_info` fields, when present, are dicts,
and whose `total_price`, when present, is numeric, boolean or null. -/
def wfItem : JSON → Bool
  | .obj ifs =>
    (match JSON.lookupField ifs "content" with
     | none => true
     | some (.obj cfs) => isObjOrAbsent (JSON.lookupField cfs "metadata")
     | some _ => false) &&
    (match JSON.lookupField ifs "token_info" with
     | none => true
     | some (.obj tfs) =>
       (match JSON.lookupField tfs "price_info" with
        | none => true
        | some (.obj pfs) => wfPrice (JSON.lookupField pfs "total_price")
        | some _ => false)
     | some _ => false)
  | _ => false

/-- Well-typed payload: falsy, or a dict whose `result`, when present, is
a dict with a dict-or-absent `nativeBalance` and a list-or-absent `items`
all of whose elements are well-typed items. -/
def wfPayload (data : JSON) : Bool :=
  JSON.falsy data ||
  (match data with
   | .obj fs =>
     (match JSON.lookupField fs "result" with
      | none => true
      | some (.obj rfs) =>
        isObjOrAbsent (JSON.lookupField rfs "nativeBalance") &&
        (match JSON.lookupField rfs "items" with
         | none => true
         | some (.arr items) => items.all wfItem
         | some _ => false)
      | some _ => false)
   | _ => false)

/-- The worked bucketing example of the specification: four assets valued
`100`, `50`, `0.3` and `0.2`. -/
def sampleRows : List ChartRow :=
  [⟨"A", "ALPHA", 100⟩, ⟨"B", "BETA", 50⟩, ⟨"C", "GAMMA", 3 / 10⟩, ⟨"D", "DELTA", 1 / 5⟩]

/-- The entry an item contributes when the loop body does not raise
(`none` both for a dropped item and, vacuously, for a raising one). -/
def itemResult (item : JSON) : Option PortfolioEntry :=
  match processItem item with
  | .ok r => r
  | .error _ => none

example : extract_portfolio_info JSON.null = .ok [] := rfl
example : extract_portfolio_info (.obj []) = .ok [] := rfl
example :
    extract_portfolio_info (.obj [("result", .obj [("nativeBalance", .obj [])])]) =
      .ok [⟨.str "Solana", .str "SOL", .num 0, .num 0, .num 9⟩] := rfl
example :
    extract_portfolio_info
      (.obj [("result", .obj [("items", .arr [.obj [("interface", .str "FungibleToken"),
        ("token_info", .obj [("price_info", .obj [("total_price", .str "oops")])])]])])]) =
      .error "TypeError" := rfl

/-! ### Helper lemmas -/

theorem lookupField_isEmpty_false {fs : List (String × JSON)} {k : String} {v : JSON}
    (h : JSON.lookupField fs k = some v) : fs.isEmpty = false := by
  cases fs with
  | nil => simp [JSON.lookupField] at h
  | cons p rest => rfl

theorem processItemsLoop_ok_eq : ∀ {items : List JSON} {l : List PortfolioEntry},
    processItemsLoop items = .ok l → l = items.filterMap itemResult := by
  intro items
  induction items with
  | nil =>
    intro l h
    simp only [processItemsLoop] at h
    cases h
    rfl
  | cons x xs ih =>
    intro l h
    simp only [processItemsLoop, Bind.bind, Except.bind] at h
    cases hx : processItem x with
    | error e => rw [hx] at h; exact absurd h (by simp)
    | ok r =>
      rw [hx] at h
      cases ht : processItemsLoop xs with
      | error e => rw [ht] at h; cases r <;> simp at h
      | ok tail =>
        rw [ht] at h
        have htail := ih ht
        cases r with
        | none =>
          simp only [] at h
          cases h
          simp [List.filterMap_cons, itemResult, hx, htail]
        | some e =>
          simp only [] at h
          cases h
          simp [List.filterMap_cons, itemResult, hx, htail]

theorem length_filter_partition (t : ℚ) (rows : List ChartRow) :
    (rows.filter fun a => decide (a.value < t)).length +
      (rows.filter fun a => decide (t ≤ a.value)).length = rows.length := by
  induction rows with
  | nil => rfl
  | cons x xs ih =>
    simp only [List.filter_cons, decide_eq_true_eq]
    by_cases hx : x.value < t
    · rw [if_pos hx, if_neg (not_le.mpr hx)]
      simp only [List.length_cons, Nat.succ_add, ih]
    · rw [if_neg hx, if_pos (not_lt.mp hx)]
      simp only [List.length_cons, Nat.add_succ, ih]

theorem sum_filter_partition (t : ℚ) (rows : List ChartRow) :
    (((rows.filter fun a => decide (a.value < t)).map ChartRow.value).sum +
      ((rows.filter fun a => decide (t ≤ a.value)).map ChartRow.value).sum) =
      (rows.map ChartRow.value).sum := by
  induction rows with
  | nil => simp
  | cons x xs ih =>
    simp only [List.filter_cons, decide_eq_true_eq, List.map_cons, List.sum_cons]
    by_cases hx : x.value < t
    · rw [if_pos hx, if_neg (not_le.mpr hx)]
      simp only [List.map_cons, List.sum_cons]
      rw [← ih]
      ring
    · rw [if_neg hx, if_pos (not_lt.mp hx)]
      simp only [List.map_cons, List.sum_cons]
      rw [← ih]
      ring

/-- C3: for every payload in which `result.nativeBalance` is present (as a
dict, so that the `.get` calls are defined), the normalizer emits the
native-currency asset as the first element of the output, with defaults
`total_price → 0`, `amount → 0`, `decimals → 9` for missing fields and no
dust filter applied to it, followed by whatever the items block yields. -/
theorem native_asset_emitted_first (fs rfs nbfs : List (String × JSON))
    (rest : List PortfolioEntry)
    (hres : JSON.lookupField fs "result" = some (.obj rfs))
    (hnb : JSON.lookupField rfs "nativeBalance" = some (.obj nbfs))
    (hitems : processItems (.obj fs) = .ok rest) :
    extract_portfolio_info (.obj fs) =
      .ok (⟨.str "Solana", .str "SOL",
            (JSON.lookupField nbfs "total_price").getD (.num 0),
            (JSON.lookupField nbfs "amount").getD (.num 0),
            (JSON.lookupField nbfs "decimals").getD (.num 9)⟩ :: rest) := by
  have hfs : fs.isEmpty = false := lookupField_isEmpty_false hres
  simp only [extract_portfolio_info, JSON.falsy, hfs, Bool.false_eq_true, if_false,
    processNative, JSON.pyIn, JSON.pySubscript, JSON.pyGet, hres, hnb, Option.isSome_some,
    if_true, Bind.bind, Except.bind, hitems, Option.getD, pure, Except.pure,
    List.singleton_append]

/-- C4: the chart step partitions assets by `total * 0.005` into `small`
(strictly below) and `large` (at or above); a non-empty `small` collapses
into one trailing `Others`/`VARIOUS` bucket holding its sum, while an
empty `small` leaves the rows unchanged; and on values
`[100, 50, 0.3, 0.2]` the output is 3 buckets with `Others` worth `0.5`. -/
theorem chart_bucketing_partition (rows : List ChartRow) :
    ((rows.filter fun a => decide (a.value < chartThreshold rows)) = [] →
      chartBuckets rows = rows) ∧
    ((rows.filter fun a => decide (a.value < chartThreshold rows)) ≠ [] →
      chartBuckets rows =
        (rows.filter fun a => decide (chartThreshold rows ≤ a.value)) ++
          [⟨"Others", "VARIOUS",
            ((rows.filter fun a => decide (a.value < chartThreshold rows)).map
              ChartRow.value).sum⟩]) ∧
    ((rows.filter fun a => decide (a.value < chartThreshold rows)).length +
      (rows.filter fun a => decide (chartThreshold rows ≤ a.value)).length = rows.length) ∧
    chartBuckets sampleRows =
      [⟨"A", "ALPHA", 100⟩, ⟨"B", "BETA", 50⟩, ⟨"Others", "VARIOUS", 1 / 2⟩] := by
  refine ⟨?_, ?_, length_filter_partition _ _, by decide⟩
  · intro h
    simp [chartBuckets, h]
  · intro h
    simp only [chartBuckets]
    rw [if_neg]
    simp only [List.isEmpty_eq_true]
    exact h

/-- C4 witness: the non-empty-`small` branch of the bucketing theorem
applied to the concrete 4-asset example. -/
theorem chart_bucketing_partition_witness :
    chartBuckets sampleRows =
      (sampleRows.filter fun a => decide (chartThreshold sampleRows ≤ a.value)) ++
        [⟨"Others", "VARIOUS",
          ((sampleRows.filter fun a => decide (a.value < chartThreshold sampleRows)).map
            ChartRow.value).sum⟩] :=
  (chart_bucketing_partition sampleRows).2.1 (by decide)

/-- C3 witness: a payload whose native balance carries `total_price = 0`
and no `amount`/`decimals` keys still yields the SOL row first, with the
defaulted fields. -/
theorem native_asset_emitted_first_witness :
    extract_portfolio_info
        (.obj [("result", .obj [("nativeBalance", .obj [("total_price", .num 0)])])]) =
      .ok [⟨.str "Solana", .str "SOL", .num 0, .num 0, .num 9⟩] :=
  native_asset_emitted_first [("result", .obj [("nativeBalance", .obj [("total_price", .num 0)])])]
    [("nativeBalance", .obj [("total_price", .num 0)])] [("total_price", .num 0)] [] rfl rfl rfl

/-- C10: under non-negative asset values the chart step preserves the
total (the buckets' values sum to the input rows' values) and never emits
more buckets than input rows. -/
theorem chart_preserves_total (rows : List ChartRow)
    (_hpos : ∀ a ∈ rows, 0 ≤ a.value) :
    chartTotal (chartBuckets rows) = chartTotal rows ∧
    (chartBuckets rows).length ≤ rows.length := by
  by_cases h : (rows.filter fun a => decide (a.value < chartThreshold rows)).isEmpty
  · constructor
    · simp [chartBuckets, h]
    · simp [chartBuckets, h]
  · have hne : (rows.filter fun a => decide (a.value < chartThreshold rows)) ≠ [] := by
      simpa [List.isEmpty_eq_true] using h
    have hshape := (chart_bucketing_partition rows).2.1 hne
    have hlen := length_filter_partition (chartThreshold rows) rows
    have hsum := sum_filter_partition (chartThreshold rows) rows
    constructor
    · rw [hshape]
      simp only [chartTotal, List.map_append, List.sum_append, List.map_cons, List.map_nil,
        List.sum_cons, List.sum_nil]
      rw [← hsum]
      ring
    · rw [hshape]
      have hsmall : 1 ≤ (rows.filter fun a => decide (a.value < chartThreshold rows)).length := by
        cases hf : (rows.filter fun a => decide (a.value < chartThreshold rows)) with
        | nil => exact absurd hf hne
        | cons y ys => simp
      simp only [List.length_append, List.length_cons, List.length_nil]
      omega

/-- C10 witness: total preservation and the bucket-count bound on the
concrete 4-asset example. -/
theorem chart_preserves_total_witness :
    chartTotal (chartBuckets sampleRows) = chartTotal sampleRows ∧
    (chartBuckets sampleRows).length ≤ sampleRows.length :=
  chart_preserves_total sampleRows (by decide)

/-- C5: `extract_portfolio_info` returns the empty list on `None`, on
`{}`, and on any payload whose `result` membership test is false; over
the empty list the aggregates are `total_value_usd = 0`,
`asset_count = 0`, and no chart buckets. -/
theorem empty_payload_empty_portfolio :
    extract_portfolio_info JSON.null = .ok [] ∧
    extract_portfolio_info (.obj []) = .ok [] ∧
    (∀ data : JSON, JSON.pyIn "result" data = .ok false →
      extract_portfolio_info data = .ok []) ∧
    total_portfolio_value [] = 0 ∧
    asset_count [] = 0 ∧
    chartBuckets [] = [] := by
  refine ⟨rfl, rfl, ?_, rfl, rfl, rfl⟩
  intro data h
  by_cases hf : JSON.falsy data
  · simp [extract_portfolio_info, hf]
  · simp [extract_portfolio_info, hf, processNative, processItems, h, Bind.bind, Except.bind,
      pure, Except.pure]

/-- C5 witness: a truthy dict payload without a `result` field maps to
the empty portfolio. -/
theorem empty_payload_empty_portfolio_witness :
    extract_portfolio_info (.obj [("jsonrpc", .str "2.0")]) = .ok [] :=
  empty_payload_empty_portfolio.2.2.1 (.obj [("jsonrpc", .str "2.0")]) rfl

/-- C2: given the extracted metadata and token fields of an item whose
`total_price` is null or numeric, the item is included in the portfolio
(with exactly those fields) iff `total_price` is not null and exceeds
`0.5` strictly; otherwise the loop body keeps the portfolio unchanged. -/
theorem item_included_iff_price_above_half (item nm sy tp am de : JSON)
    (h1 : itemMeta item = .ok (nm, sy))
    (h2 : itemTokenFields item = .ok (tp, am, de))
    (h3 : tp = JSON.null ∨ ∃ q : ℚ, tp = JSON.num q) :
    (processItem item = .ok (some ⟨nm, sy, tp, am, de⟩) ↔
      tp ≠ JSON.null ∧ ∃ q : ℚ, tp = JSON.num q ∧ 1 / 2 < q) ∧
    (processItem item = .ok none ↔
      ¬(tp ≠ JSON.null ∧ ∃ q : ℚ, tp = JSON.num q ∧ 1 / 2 < q)) := by
  rcases h3 with h3 | ⟨q, h3⟩ <;> subst h3
  · constructor <;>
      simp [processItem, h1, h2, Bind.bind, Except.bind, pure, Except.pure]
  · have hq' : ((2 : ℚ)⁻¹ < q) = ((1 : ℚ) / 2 < q) := by rw [one_div]
    by_cases hq : (1 : ℚ) / 2 < q <;> constructor <;>
      simp [processItem, h1, h2, JSON.pyGtHalf, hq' ▸ hq, Bind.bind, Except.bind,
        pure, Except.pure]

/-- C2 witness: a fungible item priced `0.5000001` is included with
exactly the extracted fields, and one priced exactly `0.5` is dropped. -/
theorem item_included_iff_price_above_half_witness :
    processItem (.obj [("interface", .str "FungibleToken"),
        ("token_info", .obj [("price_info",
          .obj [("total_price", .num (5000001 / 10000000))])])]) =
      .ok (some ⟨.str "Unknown", .str "Unknown", .num (5000001 / 10000000),
        .num 0, .num 0⟩) ∧
    processItem (.obj [("interface", .str "FungibleToken"),
        ("token_info", .obj [("price_info",
          .obj [("total_price", .num (1 / 2))])])]) =
      .ok none := by
  constructor
  · exact (item_included_iff_price_above_half
      (.obj [("interface", .str "FungibleToken"),
        ("token_info", .obj [("price_info",
          .obj [("total_price", .num (5000001 / 10000000))])])])
      (.str "Unknown") (.str "Unknown") (.num (5000001 / 10000000)) (.num 0) (.num 0)
      rfl rfl (Or.inr ⟨5000001 / 10000000, rfl⟩)).1.mpr
      ⟨(by intro h; cases h), 5000001 / 10000000, rfl, (by decide)⟩
  · exact (item_included_iff_price_above_half
      (.obj [("interface", .str "FungibleToken"),
        ("token_info", .obj [("price_info",
          .obj [("total_price", .num (1 / 2))])])])
      (.str "Unknown") (.str "Unknown") (.num (1 / 2)) (.num 0) (.num 0)
      rfl rfl (Or.inr ⟨1 / 2, rfl⟩)).2.mpr
      (by
        rintro ⟨-, q, hq, hlt⟩
        cases hq
        exact absurd hlt (by decide))

/-- C7: field-level defaults per item — a missing `content` key or a
missing `metadata` key yields `name = symbol = "Unknown"` (and when
`metadata` is a dict the two names default individually); a missing
`interface`, a non-`'FungibleToken'` interface, or a missing `token_info`
leaves `(total_price, amount, decimals) = (0, 0, 0)`; with `token_info`
present, `total_price` stays `0` unless `price_info` exists, from which
it is then read. -/
theorem item_field_defaults :
    (∀ ifs : List (String × JSON), JSON.lookupField ifs "content" = none →
      itemMeta (.obj ifs) = .ok (.str "Unknown", .str "Unknown")) ∧
    (∀ (ifs cfs : List (String × JSON)),
      JSON.lookupField ifs "content" = some (.obj cfs) →
      JSON.lookupField cfs "metadata" = none →
      itemMeta (.obj ifs) = .ok (.str "Unknown", .str "Unknown")) ∧
    (∀ (ifs cfs mfs : List (String × JSON)),
      JSON.lookupField ifs "content" = some (.obj cfs) →
      JSON.lookupField cfs "metadata" = some (.obj mfs) →
      itemMeta (.obj ifs) =
        .ok ((JSON.lookupField mfs "name").getD (.str "Unknown"),
          (JSON.lookupField mfs "symbol").getD (.str "Unknown"))) ∧
    (∀ ifs : List (String × JSON), JSON.lookupField ifs "interface" = none →
      itemTokenFields (.obj ifs) = .ok (.num 0, .num 0, .num 0)) ∧
    (∀ (ifs : List (String × JSON)) (iv : JSON),
      JSON.lookupField ifs "interface" = some iv →
      JSON.eqStr iv "FungibleToken" = false →
      itemTokenFields (.obj ifs) = .ok (.num 0, .num 0, .num 0)) ∧
    (∀ ifs : List (String × JSON),
      JSON.lookupField ifs "interface" = some (.str "FungibleToken") →
      JSON.lookupField ifs "token_info" = none →
      itemTokenFields (.obj ifs) = .ok (.num 0, .num 0, .num 0)) ∧
    (∀ (ifs tfs : List (String × JSON)),
      JSON.lookupField ifs "interface" = some (.str "FungibleToken") →
      JSON.lookupField ifs "token_info" = some (.obj tfs) →
      JSON.lookupField tfs "price_info" = none →
      itemTokenFields (.obj ifs) =
        .ok (.num 0, (JSON.lookupField tfs "amount").getD (.num 0),
          (JSON.lookupField tfs "decimals").getD (.num 0))) ∧
    (∀ (ifs tfs pfs : List (String × JSON)),
      JSON.lookupField ifs "interface" = some (.str "FungibleToken") →
      JSON.lookupField ifs "token_info" = some (.obj tfs) →
      JSON.lookupField tfs "price_info" = some (.obj pfs) →
      itemTokenFields (.obj ifs) =
        .ok ((JSON.lookupField pfs "total_price").getD (.num 0),
          (JSON.lookupField tfs "amount").getD (.num 0),
          (JSON.lookupField tfs "decimals").getD (.num 0))) := by
  refine ⟨?_, ?_, ?_, ?_, ?_, ?_, ?_, ?_⟩
  · intro ifs h
    simp [itemMeta, JSON.pyIn, JSON.pySubscript, JSON.pyGet, h, Bind.bind, Except.bind,
      pure, Except.pure]
  · intro ifs cfs h hm
    simp [itemMeta, JSON.pyIn, JSON.pySubscript, JSON.pyGet, h, hm, Bind.bind, Except.bind,
      pure, Except.pure]
  · intro ifs cfs mfs h hm
    simp [itemMeta, JSON.pyIn, JSON.pySubscript, JSON.pyGet, h, hm, Bind.bind, Except.bind,
      pure, Except.pure]
  · intro ifs h
    simp [itemTokenFields, JSON.pyIn, JSON.pySubscript, JSON.pyGet, h, Bind.bind, Except.bind,
      pure, Except.pure]
  · intro ifs iv h hiv
    simp [itemTokenFields, JSON.pyIn, JSON.pySubscript, JSON.pyGet, h, hiv, Bind.bind,
      Except.bind, pure, Except.pure]
  · intro ifs h ht
    simp [itemTokenFields, JSON.pyIn, JSON.pySubscript, JSON.pyGet, JSON.eqStr, h, ht,
      Bind.bind, Except.bind, pure, Except.pure]
  · intro ifs tfs h ht hp
    simp [itemTokenFields, JSON.pyIn, JSON.pySubscript, JSON.pyGet, JSON.eqStr, h, ht, hp,
      Bind.bind, Except.bind, pure, Except.pure]
  · intro ifs tfs pfs h ht hp
    simp [itemTokenFields, JSON.pyIn, JSON.pySubscript, JSON.pyGet, JSON.eqStr, h, ht, hp,
      Bind.bind, Except.bind, pure, Except.pure]

/-- C7 witness: an item with no `content` block, a `FungibleToken`
interface and no `token_info` gets all the documented defaults. -/
theorem item_field_defaults_witness :
    itemMeta (.obj [("interface", .str "FungibleToken")]) =
      .ok (.str "Unknown", .str "Unknown") ∧
    itemTokenFields (.obj [("interface", .str "FungibleToken")]) =
      .ok (.num 0, .num 0, .num 0) :=
  ⟨item_field_defaults.1 [("interface", .str "FungibleToken")] rfl,
   item_field_defaults.2.2.2.2.2.1 [("interface", .str "FungibleToken")] rfl rfl⟩

/-- C9: every item the loop admits carries a `total_price_usd` whose
Python-numeric value strictly exceeds `0.5`; consequently an item whose
`interface` is not the `'FungibleToken'` marker, or that lacks
`token_info` or `price_info`, is never admitted (its price stays at the
default `0`). -/
theorem nonnative_output_above_half :
    (∀ (item : JSON) (e : PortfolioEntry), processItem item = .ok (some e) →
      ∃ q : ℚ, JSON.numVal e.total_price_usd = some q ∧ 1 / 2 < q) ∧
    (∀ (ifs : List (String × JSON)) (e : PortfolioEntry),
      JSON.lookupField ifs "interface" ≠ some (.str "FungibleToken") →
      processItem (.obj ifs) ≠ .ok (some e)) ∧
    (∀ (ifs : List (String × JSON)) (e : PortfolioEntry),
      JSON.lookupField ifs "token_info" = none →
      processItem (.obj ifs) ≠ .ok (some e)) ∧
    (∀ (ifs tfs : List (String × JSON)) (e : PortfolioEntry),
      JSON.lookupField ifs "token_info" = some (.obj tfs) →
      JSON.lookupField tfs "price_info" = none →
      processItem (.obj ifs) ≠ .ok (some e)) := by
  have main : ∀ (item : JSON) (e : PortfolioEntry), processItem item = .ok (some e) →
      ∃ q : ℚ, JSON.numVal e.total_price_usd = some q ∧ 1 / 2 < q := by
    intro item e h
    cases hm : itemMeta item with
    | error err => rw [processItem, hm] at h; exact absurd h (by simp [Bind.bind, Except.bind])
    | ok ns =>
      cases ht : itemTokenFields item with
      | error err =>
        rw [processItem, hm, ht] at h
        exact absurd h (by simp [Bind.bind, Except.bind])
      | ok tad =>
        rw [processItem, hm, ht] at h
        simp only [Bind.bind, Except.bind] at h
        rcases tad with ⟨tp, am, de⟩
        cases tp with
        | null => simp [pure, Except.pure] at h
        | num q =>
          by_cases hq : (2 : ℚ)⁻¹ < q
          · simp only [JSON.pyGtHalf, one_div, hq, decide_eq_true_eq, if_pos,
              pure, Except.pure, decide_True] at h
            cases h
            refine ⟨q, rfl, ?_⟩
            rw [one_div]
            exact hq
          · simp [JSON.pyGtHalf, one_div, hq, pure, Except.pure] at h
        | bool b =>
          cases b with
          | false => simp [JSON.pyGtHalf, pure, Except.pure] at h
          | true =>
            simp only [JSON.pyGtHalf, if_pos, pure, Except.pure] at h
            cases h
            exact ⟨1, rfl, by norm_num⟩
        | str s => simp [JSON.pyGtHalf, Except.bind] at h
        | arr xs => simp [JSON.pyGtHalf, Except.bind] at h
        | obj fs => simp [JSON.pyGtHalf, Except.bind] at h
  have zeroPrice : ∀ (ifs : List (String × JSON)) (e : PortfolioEntry),
      itemTokenFields (.obj ifs) = .ok (.num 0, .num 0, .num 0) →
      processItem (.obj ifs) ≠ .ok (some e) := by
    intro ifs e ht h
    cases hm : itemMeta (.obj ifs) with
    | error err => rw [processItem, hm] at h; exact absurd h (by simp [Bind.bind, Except.bind])
    | ok ns =>
      rw [processItem, hm, ht] at h
      simp [Bind.bind, Except.bind, JSON.pyGtHalf, pure, Except.pure,
        show ¬((2 : ℚ)⁻¹ < 0) by norm_num] at h
  refine ⟨main, ?_, ?_, ?_⟩
  · intro ifs e hint
    cases hi : JSON.lookupField ifs "interface" with
    | none =>
      exact zeroPrice ifs e (item_field_defaults.2.2.2.1 ifs hi)
    | some iv =>
      have hiv : JSON.eqStr iv "FungibleToken" = false := by
        cases iv with
        | str t =>
          simp only [JSON.eqStr, decide_eq_false_iff_not]
          intro hteq
          exact hint (by rw [hi, hteq])
        | null => rfl
        | bool b => rfl
        | num q => rfl
        | arr xs => rfl
        | obj fs => rfl
      exact zeroPrice ifs e (item_field_defaults.2.2.2.2.1 ifs iv hi hiv)
  · intro ifs e htok
    cases hi : JSON.lookupField ifs "interface" with
    | none => exact zeroPrice ifs e (item_field_defaults.2.2.2.1 ifs hi)
    | some iv =>
      by_cases hfun : JSON.eqStr iv "FungibleToken" = true
      · have : iv = .str "FungibleToken" := by
          cases iv <;> simp [JSON.eqStr] at hfun
          simp [hfun]
        subst this
        exact zeroPrice ifs e (item_field_defaults.2.2.2.2.2.1 ifs hi htok)
      · exact zeroPrice ifs e
          (item_field_defaults.2.2.2.2.1 ifs iv hi (Bool.eq_false_iff.mpr hfun))
  · intro ifs tfs e htok hpi h
    cases hi : JSON.lookupField ifs "interface" with
    | none => exact zeroPrice ifs e (item_field_defaults.2.2.2.1 ifs hi) h
    | some iv =>
      by_cases hfun : JSON.eqStr iv "FungibleToken" = true
      · have hiv : iv = .str "FungibleToken" := by
          cases iv <;> simp [JSON.eqStr] at hfun
          simp [hfun]
        subst hiv
        have ht := item_field_defaults.2.2.2.2.2.2.1 ifs tfs hi htok hpi
        cases hm : itemMeta (.obj ifs) with
        | error err =>
          rw [processItem, hm] at h
          exact absurd h (by simp [Bind.bind, Except.bind])
        | ok ns =>
          rw [processItem, hm, ht] at h
          simp [Bind.bind, Except.bind, JSON.pyGtHalf, pure, Except.pure,
            show ¬((2 : ℚ)⁻¹ < 0) by norm_num] at h
      · exact zeroPrice ifs e
          (item_field_defaults.2.2.2.2.1 ifs iv hi (Bool.eq_false_iff.mpr hfun)) h

/-- C9 witness: the value invariant instantiated on a concrete admitted
item priced `0.75`. -/
theorem nonnative_output_above_half_witness :
    ∃ q : ℚ,
      JSON.numVal (PortfolioEntry.total_price_usd
        ⟨.str "Unknown", .str "Unknown", .num (3 / 4), .num 0, .num 0⟩) = some q ∧
      1 / 2 < q :=
  nonnative_output_above_half.1
    (.obj [("interface", .str "FungibleToken"),
      ("token_info", .obj [("price_info", .obj [("total_price", .num (3 / 4))])])])
    ⟨.str "Unknown", .str "Unknown", .num (3 / 4), .num 0, .num 0⟩ rfl

theorem processItems_eq_loop (fs rfs : List (String × JSON)) (items : List JSON)
    (hres : JSON.lookupField fs "result" = some (.obj rfs))
    (hit : JSON.lookupField rfs "items" = some (.arr items)) :
    processItems (.obj fs) = processItemsLoop items := by
  simp [processItems, JSON.pyIn, JSON.pySubscript, JSON.pyIter, hres, hit, Bind.bind,
    Except.bind]

theorem extract_decompose (fs rfs : List (String × JSON)) (items : List JSON)
    (l : List PortfolioEntry)
    (hres : JSON.lookupField fs "result" = some (.obj rfs))
    (hit : JSON.lookupField rfs "items" = some (.arr items))
    (hok : extract_portfolio_info (.obj fs) = .ok l) :
    ∃ natl il, processNative (.obj fs) = .ok natl ∧
      processItemsLoop items = .ok il ∧ l = natl ++ il := by
  have hfs : fs.isEmpty = false := lookupField_isEmpty_false hres
  rw [extract_portfolio_info] at hok
  simp only [JSON.falsy, hfs, Bool.false_eq_true, if_false, Bind.bind, Except.bind] at hok
  cases hn : processNative (.obj fs) with
  | error err => rw [hn] at hok; exact absurd hok (by simp)
  | ok natl =>
    rw [hn, processItems_eq_loop fs rfs items hres hit] at hok
    cases hl : processItemsLoop items with
    | error err => rw [hl] at hok; exact absurd hok (by simp)
    | ok il =>
      rw [hl] at hok
      simp only [pure, Except.pure, Except.ok.injEq] at hok
      exact ⟨natl, il, rfl, rfl, hok.symm⟩

theorem processNative_congr (fs fs' rfs rfs' : List (String × JSON))
    (hres : JSON.lookupField fs "result" = some (.obj rfs))
    (hres' : JSON.lookupField fs' "result" = some (.obj rfs'))
    (hnb : JSON.lookupField rfs "nativeBalance" = JSON.lookupField rfs' "nativeBalance") :
    processNative (.obj fs) = processNative (.obj fs') := by
  cases hnb0 : JSON.lookupField rfs "nativeBalance" with
  | none =>
    have hnb0' : JSON.lookupField rfs' "nativeBalance" = none := hnb.symm.trans hnb0
    simp [processNative, JSON.pyIn, JSON.pySubscript, hres, hres', hnb0, hnb0', Bind.bind,
      Except.bind]
  | some nb =>
    have hnb0' : JSON.lookupField rfs' "nativeBalance" = some nb := hnb.symm.trans hnb0
    simp [processNative, JSON.pyIn, JSON.pySubscript, hres, hres', hnb0, hnb0', Bind.bind,
      Except.bind]

/-- C6: the aggregated total is the sum of every included asset's value,
and for two payloads that agree on `nativeBalance` and whose `items`
lists are permutations of each other, successful extraction yields the
same total portfolio value. -/
theorem total_value_perm_invariant :
    (∀ p : List PortfolioEntry, total_portfolio_value p = (p.map entryVal).sum) ∧
    (∀ (fs fs' rfs rfs' : List (String × JSON)) (items items' : List JSON)
      (l l' : List PortfolioEntry),
      JSON.lookupField fs "result" = some (.obj rfs) →
      JSON.lookupField fs' "result" = some (.obj rfs') →
      JSON.lookupField rfs "items" = some (.arr items) →
      JSON.lookupField rfs' "items" = some (.arr items') →
      JSON.lookupField rfs "nativeBalance" = JSON.lookupField rfs' "nativeBalance" →
      items.Perm items' →
      extract_portfolio_info (.obj fs) = .ok l →
      extract_portfolio_info (.obj fs') = .ok l' →
      total_portfolio_value l = total_portfolio_value l') := by
  refine ⟨fun p => rfl, ?_⟩
  intro fs fs' rfs rfs' items items' l l' hres hres' hit hit' hnb hperm hok hok'
  obtain ⟨natl, il, hn, hl, hdec⟩ := extract_decompose fs rfs items l hres hit hok
  obtain ⟨natl', il', hn', hl', hdec'⟩ := extract_decompose fs' rfs' items' l' hres' hit' hok'
  have hnat : natl = natl' := by
    have := (processNative_congr fs fs' rfs rfs' hres hres' hnb).symm.trans hn
    rw [hn'] at this
    exact (Except.ok.injEq _ _ ▸ this).symm
  have hil : il.Perm il' := by
    rw [processItemsLoop_ok_eq hl, processItemsLoop_ok_eq hl']
    exact hperm.filterMap itemResult
  subst hdec hdec' hnat
  simp only [total_portfolio_value, List.map_append, List.sum_append]
  have : (il.map entryVal).sum = (il'.map entryVal).sum := (hil.map entryVal).sum_eq
  rw [this]

/-- C6 witness: swapping two fungible items (priced 1 and 2) next to a
native balance of 5 leaves the total unchanged. -/
theorem total_value_perm_invariant_witness :
    total_portfolio_value
        [⟨.str "Solana", .str "SOL", .num 5, .num 0, .num 9⟩,
         ⟨.str "Unknown", .str "Unknown", .num 1, .num 0, .num 0⟩,
         ⟨.str "Unknown", .str "Unknown", .num 2, .num 0, .num 0⟩] =
      total_portfolio_value
        [⟨.str "Solana", .str "SOL", .num 5, .num 0, .num 9⟩,
         ⟨.str "Unknown", .str "Unknown", .num 2, .num 0, .num 0⟩,
         ⟨.str "Unknown", .str "Unknown", .num 1, .num 0, .num 0⟩] :=
  total_value_perm_invariant.2
    [("result", .obj [("nativeBalance", .obj [("total_price", .num 5)]),
      ("items", .arr [
        JSON.obj [("interface", .str "FungibleToken"),
          ("token_info", .obj [("price_info", .obj [("total_price", .num 1)])])],
        JSON.obj [("interface", .str "FungibleToken"),
          ("token_info", .obj [("price_info", .obj [("total_price", .num 2)])])]])])]
    [("result", .obj [("nativeBalance", .obj [("total_price", .num 5)]),
      ("items", .arr [
        JSON.obj [("interface", .str "FungibleToken"),
          ("token_info", .obj [("price_info", .obj [("total_price", .num 2)])])],
        JSON.obj [("interface", .str "FungibleToken"),
          ("token_info", .obj [("price_info", .obj [("total_price", .num 1)])])]])])]
    [("nativeBalance", .obj [("total_price", .num 5)]),
      ("items", .arr [
        JSON.obj [("interface", .str "FungibleToken"),
          ("token_info", .obj [("price_info", .obj [("total_price", .num 1)])])],
        JSON.obj [("interface", .str "FungibleToken"),
          ("token_info", .obj [("price_info", .obj [("total_price", .num 2)])])]])]
    [("nativeBalance", .obj [("total_price", .num 5)]),
      ("items", .arr [
        JSON.obj [("interface", .str "FungibleToken"),
          ("token_info", .obj [("price_info", .obj [("total_price", .num 2)])])],
        JSON.obj [("interface", .str "FungibleToken"),
          ("token_info", .obj [("price_info", .obj [("total_price", .num 1)])])]])]
    [JSON.obj [("interface", .str "FungibleToken"),
        ("token_info", .obj [("price_info", .obj [("total_price", .num 1)])])],
      JSON.obj [("interface", .str "FungibleToken"),
        ("token_info", .obj [("price_info", .obj [("total_price", .num 2)])])]]
    [JSON.obj [("interface", .str "FungibleToken"),
        ("token_info", .obj [("price_info", .obj [("total_price", .num 2)])])],
      JSON.obj [("interface", .str "FungibleToken"),
        ("token_info", .obj [("price_info", .obj [("total_price", .num 1)])])]]
    [⟨.str "Solana", .str "SOL", .num 5, .num 0, .num 9⟩,
      ⟨.str "Unknown", .str "Unknown", .num 1, .num 0, .num 0⟩,
      ⟨.str "Unknown", .str "Unknown", .num 2, .num 0, .num 0⟩]
    [⟨.str "Solana", .str "SOL", .num 5, .num 0, .num 9⟩,
      ⟨.str "Unknown", .str "Unknown", .num 2, .num 0, .num 0⟩,
      ⟨.str "Unknown", .str "Unknown", .num 1, .num 0, .num 0⟩]
    rfl rfl rfl rfl rfl
    (List.Perm.swap
      (JSON.obj [("interface", .str "FungibleToken"),
        ("token_info", .obj [("price_info", .obj [("total_price", .num 2)])])])
      (JSON.obj [("interface", .str "FungibleToken"),
        ("token_info", .obj [("price_info", .obj [("total_price", .num 1)])])])
      [])
    rfl rfl

theorem wfItem_processItem_ok (item : JSON) (h : wfItem item = true) :
    ∃ r, processItem item = .ok r := by
  cases item with
  | null => simp [wfItem] at h
  | bool b => simp [wfItem] at h
  | num q => simp [wfItem] at h
  | str s => simp [wfItem] at h
  | arr xs => simp [wfItem] at h
  | obj ifs =>
    simp only [wfItem, Bool.and_eq_true] at h
    obtain ⟨hc, ht⟩ := h
    have hmeta : ∃ ns, itemMeta (.obj ifs) = .ok ns := by
      cases hcon : JSON.lookupField ifs "content" with
      | none => exact ⟨_, item_field_defaults.1 ifs hcon⟩
      | some c =>
        simp only [hcon] at hc
        cases c with
        | obj cfs =>
          cases hmet : JSON.lookupField cfs "metadata" with
          | none => exact ⟨_, item_field_defaults.2.1 ifs cfs hcon hmet⟩
          | some m =>
            simp only [hmet] at hc
            cases m with
            | obj mfs => exact ⟨_, item_field_defaults.2.2.1 ifs cfs mfs hcon hmet⟩
            | null => simp [isObjOrAbsent] at hc
            | bool b => simp [isObjOrAbsent] at hc
            | num q => simp [isObjOrAbsent] at hc
            | str s => simp [isObjOrAbsent] at hc
            | arr xs => simp [isObjOrAbsent] at hc
        | null => simp at hc
        | bool b => simp at hc
        | num q => simp at hc
        | str s => simp at hc
        | arr xs => simp at hc
    have htok : ∃ tp am de, itemTokenFields (.obj ifs) = .ok (tp, am, de) ∧
        wfPrice (some tp) = true := by
      cases hint : JSON.lookupField ifs "interface" with
      | none => exact ⟨_, _, _, item_field_defaults.2.2.2.1 ifs hint, rfl⟩
      | some iv =>
        by_cases hfun : JSON.eqStr iv "FungibleToken" = true
        · have hiv : iv = .str "FungibleToken" := by
            cases iv <;> simp [JSON.eqStr] at hfun
            simp [hfun]
          subst hiv
          cases htok0 : JSON.lookupField ifs "token_info" with
          | none => exact ⟨_, _, _, item_field_defaults.2.2.2.2.2.1 ifs hint htok0, rfl⟩
          | some t =>
            simp only [htok0] at ht
            cases t with
            | obj tfs =>
              cases hpi : JSON.lookupField tfs "price_info" with
              | none =>
                exact ⟨_, _, _, item_field_defaults.2.2.2.2.2.2.1 ifs tfs hint htok0 hpi, rfl⟩
              | some p =>
                simp only [hpi] at ht
                cases p with
                | obj pfs =>
                  refine ⟨_, _, _,
                    item_field_defaults.2.2.2.2.2.2.2 ifs tfs pfs hint htok0 hpi, ?_⟩
                  cases htp : JSON.lookupField pfs "total_price" with
                  | none => rfl
                  | some v => simpa [htp] using ht
                | null => simp at ht
                | bool b => simp at ht
                | num q => simp at ht
                | str s => simp at ht
                | arr xs => simp at ht
            | null => simp at ht
            | bool b => simp at ht
            | num q => simp at ht
            | str s => simp at ht
            | arr xs => simp at ht
        · exact ⟨_, _, _,
            item_field_defaults.2.2.2.2.1 ifs iv hint (Bool.eq_false_iff.mpr hfun), rfl⟩
    obtain ⟨ns, hm⟩ := hmeta
    obtain ⟨tp, am, de, ht2, hwf⟩ := htok
    rw [processItem, hm, ht2]
    cases tp with
    | null => exact ⟨none, rfl⟩
    | num q =>
      simp only [Bind.bind, Except.bind, JSON.pyGtHalf]
      by_cases hq : (2 : ℚ)⁻¹ < q
      · simp only [one_div, hq, decide_True, if_pos]
        exact ⟨_, rfl⟩
      · simp only [one_div, hq, decide_False, if_neg, Bool.false_eq_true]
        exact ⟨none, rfl⟩
    | bool b =>
      cases b with
      | true => exact ⟨_, rfl⟩
      | false => exact ⟨none, rfl⟩
    | str s => simp [wfPrice] at hwf
    | arr xs => simp [wfPrice] at hwf
    | obj fs2 => simp [wfPrice] at hwf

theorem processItemsLoop_ok_of_forall (items : List JSON)
    (h : ∀ x ∈ items, ∃ r, processItem x = .ok r) :
    ∃ l, processItemsLoop items = .ok l := by
  induction items with
  | nil => exact ⟨[], rfl⟩
  | cons x xs ih =>
    obtain ⟨r, hr⟩ := h x (List.mem_cons_self x xs)
    obtain ⟨tail, htail⟩ := ih (fun y hy => h y (List.mem_cons_of_mem x hy))
    rw [processItemsLoop, hr, htail]
    cases r with
    | some e => exact ⟨e :: tail, rfl⟩
    | none => exact ⟨tail, rfl⟩

/-- C1 counterexample: a payload carrying a fungible item whose
`total_price` is the string `"oops"` makes `extract_portfolio_info` hit
`total_price > 0.5` with a non-numeric operand, i.e. the Python code
raises `TypeError` instead of defaulting. -/
theorem extract_raises_on_nonnumeric_price :
    extract_portfolio_info
        (.obj [("result", .obj [("items", .arr [.obj [("interface", .str "FungibleToken"),
          ("token_info", .obj [("price_info", .obj [("total_price", .str "oops")])])]])])]) =
      .error "TypeError" := rfl

/-- C1 (amended): on every well-typed payload — nested fields that are
present have the expected dict/list shapes and any present `total_price`
is numeric, boolean or null — `extract_portfolio_info` never raises:
every missing nested field falls back to its stated default.  (As the
counterexample shows, a malformed type is *not* treated as absent: it
propagates a type error.) -/
theorem extract_ok_of_wfPayload (data : JSON) (h : wfPayload data = true) :
    ∃ l, extract_portfolio_info data = .ok l := by
  by_cases hf : JSON.falsy data
  · exact ⟨[], by simp [extract_portfolio_info, hf]⟩
  · cases data with
    | null => exact absurd rfl hf
    | bool b =>
      have hb : wfPayload (.bool b) = JSON.falsy (.bool b) := by simp [wfPayload]
      rw [hb] at h
      exact absurd h hf
    | num q =>
      have hq : wfPayload (.num q) = JSON.falsy (.num q) := by simp [wfPayload]
      rw [hq] at h
      exact absurd h hf
    | str s =>
      have hs : wfPayload (.str s) = JSON.falsy (.str s) := by simp [wfPayload]
      rw [hs] at h
      exact absurd h hf
    | arr xs =>
      have ha : wfPayload (.arr xs) = JSON.falsy (.arr xs) := by simp [wfPayload]
      rw [ha] at h
      exact absurd h hf
    | obj fs =>
      have hfe : fs.isEmpty = false := by
        cases hh : fs.isEmpty
        · rfl
        · exact absurd hh hf
      simp only [wfPayload, JSON.falsy, hfe, Bool.false_or] at h
      rw [extract_portfolio_info]
      simp only [JSON.falsy, hfe, Bool.false_eq_true, if_false]
      cases hres : JSON.lookupField fs "result" with
      | none =>
        refine ⟨[], ?_⟩
        simp [processNative, processItems, JSON.pyIn, hres, Bind.bind, Except.bind,
          pure, Except.pure]
      | some rv =>
        simp only [hres] at h
        cases rv with
        | null => simp at h
        | bool b => simp at h
        | num q => simp at h
        | str s => simp at h
        | arr xs => simp at h
        | obj rfs =>
          simp only [Bool.and_eq_true] at h
          obtain ⟨hnb, hit⟩ := h
          have hnative : ∃ natl, processNative (.obj fs) = .ok natl := by
            cases hnb0 : JSON.lookupField rfs "nativeBalance" with
            | none =>
              refine ⟨[], ?_⟩
              simp [processNative, JSON.pyIn, JSON.pySubscript, hres, hnb0, Bind.bind,
                Except.bind, pure, Except.pure]
            | some nb =>
              simp only [hnb0] at hnb
              cases nb with
              | obj nbfs =>
                refine ⟨[⟨.str "Solana", .str "SOL",
                  (JSON.lookupField nbfs "total_price").getD (.num 0),
                  (JSON.lookupField nbfs "amount").getD (.num 0),
                  (JSON.lookupField nbfs "decimals").getD (.num 9)⟩], ?_⟩
                simp [processNative, JSON.pyIn, JSON.pySubscript, JSON.pyGet, hres, hnb0,
                  Bind.bind, Except.bind, pure, Except.pure]
              | null => simp [isObjOrAbsent] at hnb
              | bool b => simp [isObjOrAbsent] at hnb
              | num q => simp [isObjOrAbsent] at hnb
              | str s => simp [isObjOrAbsent] at hnb
              | arr xs => simp [isObjOrAbsent] at hnb
          have hitems : ∃ il, processItems (.obj fs) = .ok il := by
            cases hit0 : JSON.lookupField rfs "items" with
            | none =>
              refine ⟨[], ?_⟩
              simp [processItems, JSON.pyIn, JSON.pySubscript, hres, hit0, Bind.bind,
                Except.bind, pure, Except.pure]
            | some itv =>
              simp only [hit0] at hit
              cases itv with
              | arr items =>
                rw [processItems_eq_loop fs rfs items hres hit0]
                refine processItemsLoop_ok_of_forall items ?_
                intro x hx
                exact wfItem_processItem_ok x (by
                  have := List.all_eq_true.mp hit x hx
                  simpa using this)
              | null => simp at hit
              | bool b => simp at hit
              | num q => simp at hit
              | str s => simp at hit
              | obj ofs => simp at hit
          obtain ⟨natl, hnat⟩ := hnative
          obtain ⟨il, hil⟩ := hitems
          refine ⟨natl ++ il, ?_⟩
          rw [hnat, hil]
          rfl

/-- C1 witness: a well-typed payload exercising a native balance, a
metadata-less fungible item and a valueless NFT-style item extracts
without raising. -/
theorem extract_ok_of_wfPayload_witness :
    wfPayload (.obj [("result", .obj [("nativeBalance", .obj [("total_price", .num 7)]),
        ("items", .arr [
          .obj [("interface", .str "FungibleToken"),
            ("token_info", .obj [("price_info", .obj [("total_price", .num 3)])])],
          .obj [("interface", .str "V1_NFT"),
            ("content", .obj [("metadata", .obj [("name", .str "SomeNFT")])])]])])]) = true ∧
    ∃ l, extract_portfolio_info
        (.obj [("result", .obj [("nativeBalance", .obj [("total_price", .num 7)]),
          ("items", .arr [
            .obj [("interface", .str "FungibleToken"),
              ("token_info", .obj [("price_info", .obj [("total_price", .num 3)])])],
            .obj [("interface", .str "V1_NFT"),
              ("content", .obj [("metadata", .obj [("name", .str "SomeNFT")])])]])])]) =
      .ok l :=
  ⟨rfl, extract_ok_of_wfPayload
    (.obj [("result", .obj [("nativeBalance", .obj [("total_price", .num 7)]),
      ("items", .arr [
        .obj [("interface", .str "FungibleToken"),
          ("token_info", .obj [("price_info", .obj [("total_price", .num 3)])])],
        .obj [("interface", .str "V1_NFT"),
          ("content", .obj [("metadata", .obj [("name", .str "SomeNFT")])])]])])]) rfl⟩

/-- C8: the displayed amount is `raw_amount / 10^decimals` rendered with
4 fixed decimals and thousands separators, the displayed value is the
dollar string with 2 fixed decimals and thousands separators; in
particular `raw_amount = 1500000000, decimals = 9` renders as `"1.5000"`. -/
theorem display_formatting :
    (∀ (amount : ℚ) (decimals : Nat),
      formatAmount amount decimals = formatFixed (amount / 10 ^ decimals) 4) ∧
    (∀ v : ℚ, formatUSD v = "$" ++ formatFixed v 2) ∧
    formatAmount 1500000000 9 = "1.5000" ∧
    formatAmount 1234567890000 6 = "1,234,567.8900" ∧
    formatUSD (2469 / 2) = "$1,234.50" ∧
    formatUSD 305 = "$305.00" :=
  ⟨fun a d => rfl, fun v => rfl, by decide, by decide, by decide, by decide⟩
